import Mathlib

/-!
Shallow embedding of the yetanothersmtpd SMTP session engine
(command parser, status taxonomy, address validator, session state
machine) together with proofs about the frozen specification claims.

External effects (the network transport, the policy handler and the
message handler supplied by the library user) are modelled by a
`World` record: the transcript of written lines, the queue of input
lines, and one response oracle per handler operation.  Go errors are
either a `ReportableStatus` (code + message, written to the client)
or a fatal transport error; a Go runtime panic is modelled by a
dedicated outcome constructor.
-/

namespace Smtpd

/-! ## String helpers mirroring the Go standard library functions used -/

/-- Model of Go strings.Split with a one-character separator. -/
def splitOnElem {α : Type} [DecidableEq α] (sep : α) : List α → List (List α)
  | [] => [[]]
  | c :: rest =>
    match splitOnElem sep rest with
    | [] => if c = sep then [[], []] else [[c]]
    | g :: gs => if c = sep then [] :: g :: gs else (c :: g) :: gs

/-- Accumulator loop for `goFields`; `acc` holds the current word reversed. -/
def fieldsAux : List Char → List Char → List (List Char)
  | acc, [] => if acc.isEmpty then [] else [acc.reverse]
  | acc, c :: rest =>
    if c.isWhitespace then
      if acc.isEmpty then fieldsAux [] rest
      else acc.reverse :: fieldsAux [] rest
    else fieldsAux (c :: acc) rest

/-- Model of Go strings.Fields: split on whitespace, dropping empty words. -/
def goFields (s : String) : List String :=
  (fieldsAux [] s.data).map String.mk

/-- Model of Go strings.ToUpper (ASCII range, which covers SMTP verbs). -/
def goToUpper (s : String) : String :=
  String.mk (s.data.map Char.toUpper)

/-! ## Status taxonomy (status.go) -/

def StatusServiceReady : Nat := 220
def StatusServiceClosing : Nat := 221
def StatusOK : Nat := 250
def StatusProvideCredentials : Nat := 334
def StatusStartMailInput : Nat := 354
def StatusSyntaxError : Nat := 501
def StatusCommandNotImplemented : Nat := 502
def StatusBadSequence : Nat := 503

/-- ReportableStatus is a (code, message) pair usable both as a success
reply and as a recoverable protocol error. -/
structure ReportableStatus where
  code : Nat
  message : String
deriving Repr, DecidableEq

def AuthSuccess : ReportableStatus := ⟨235, "OK, you are now authenticated"⟩
def GoAhead : ReportableStatus := ⟨StatusOK, "Go ahead"⟩
def ThankYou : ReportableStatus := ⟨StatusOK, "Thank you"⟩
def ErrBadSequence : ReportableStatus := ⟨StatusBadSequence, "Invalid command sequence"⟩
def ErrDecodingCredentials : ReportableStatus := ⟨StatusSyntaxError, "Couldn\x27t decode your credentials"⟩
def ErrInvalidSyntax : ReportableStatus := ⟨StatusSyntaxError, "Invalid syntax"⟩
def ErrMalformedEmail : ReportableStatus := ⟨StatusSyntaxError, "Malformed email address"⟩
def ErrNoHelo : ReportableStatus := ⟨StatusBadSequence, "Please introduce yourself first"⟩

/-- A Go error value: either a reportable status or a fatal
transport/internal error carrying only a message. -/
inductive GoError where
  | reportable (r : ReportableStatus)
  | fatal (msg : String)
deriving Repr, DecidableEq

/-! ## Command parser (command.go) -/

structure Command where
  line : String
  action : String
  fields : List String
  params : List String
deriving Repr, DecidableEq

/-- parseLine splits the raw line on whitespace, uppercases the verb, and
colon-splits the second field into params (nil when absent). -/
def parseLine (line : String) : Command :=
  match goFields line with
  | [] => { line := line, action := "", fields := [], params := [] }
  | f0 :: rest =>
    { line := line
      action := goToUpper f0
      fields := f0 :: rest
      params :=
        match rest with
        | [] => []
        | f1 :: _ => (splitOnElem ':' f1.data).map String.mk }

/-! ## Address validator (address.go) -/

/-- atext characters of the mail-address grammar, given by code point to
keep the character set explicit. -/
def isAtext (c : Char) : Bool :=
  c.isAlpha || c.isDigit ||
    [33, 35, 36, 37, 38, 39, 42, 43, 45, 47, 61, 63,
     94, 95, 96, 123, 124, 125, 126].contains c.toNat

/-- No two adjacent dots. -/
def noDoubleDot : List Char → Bool
  | [] => true
  | [_] => true
  | a :: b :: rest => !(a = '.' && b = '.') && noDoubleDot (b :: rest)

/-- A dot-atom: nonempty atext run, dots allowed inside but not leading,
trailing, or doubled. -/
def dotAtomOk (t : List Char) : Bool :=
  !t.isEmpty && t.all (fun c => isAtext c || c = '.') &&
    t.head? ≠ some '.' && t.getLast? ≠ some '.' && noDoubleDot t

/-- Modelled from the spec: the standard-library mail-address parser
(Go net/mail.ParseAddress, outside this repository) restricted to the
inputs reachable here — an angle-addr whose local part and domain are
dot-atoms ("local-part@domain" per the standard grammar; quoting and
comment rules are not exercised by the claims and are omitted).
Returns the canonical address with the angle brackets stripped. -/
def mailParseAddress (src : String) : Option String :=
  match src.data with
  | '<' :: rest =>
    match rest.getLast? with
    | some '>' =>
      let mid := rest.dropLast
      match splitOnElem '@' mid with
      | [l, d] =>
        if dotAtomOk l && dotAtomOk d then
          some (String.mk l ++ "@" ++ String.mk d)
        else none
      | _ => none
    | _ => none
  | _ => none

/-- parseAddress requires the angle-bracket wrapping, then delegates to
the mail-address parser; every failure maps to ErrMalformedEmail. -/
def parseAddress (src : String) : Except GoError String :=
  if ¬ (src.data.head? = some '<' ∧ src.data.getLast? = some '>') then
    .error (.reportable ErrMalformedEmail)
  else
    match mailParseAddress src with
    | none => .error (.reportable ErrMalformedEmail)
    | some a => .ok a

example : parseAddress "<foo@bar>" = .ok "foo@bar" := rfl
example : parseAddress "foo@bar" = .error (.reportable ErrMalformedEmail) := rfl

/-! ## Base64 (encoding/base64 StdEncoding, as used by the AUTH handlers) -/

/-- Value of one standard-alphabet base64 digit. -/
def b64Index (c : Char) : Option Nat :=
  if 'A' ≤ c ∧ c ≤ 'Z' then some (c.toNat - 65)
  else if 'a' ≤ c ∧ c ≤ 'z' then some (c.toNat - 97 + 26)
  else if '0' ≤ c ∧ c ≤ '9' then some (c.toNat - 48 + 52)
  else if c = '+' then some 62
  else if c = '/' then some 63
  else none

/-- Decode base64 quartets into bytes; padding may close only the final
quartet, and the total length must be a multiple of four. -/
def b64DecodeGroups : List Char → Option (List Nat)
  | [] => some []
  | c0 :: c1 :: c2 :: c3 :: rest =>
    match b64Index c0, b64Index c1 with
    | some i0, some i1 =>
      if c2 = '=' then
        if c3 = '=' ∧ rest = [] then some [i0 * 4 + i1 / 16]
        else none
      else
        match b64Index c2 with
        | some i2 =>
          if c3 = '=' then
            if rest = [] then some [i0 * 4 + i1 / 16, i1 % 16 * 16 + i2 / 4]
            else none
          else
            match b64Index c3 with
            | some i3 =>
              (b64DecodeGroups rest).map fun bs =>
                (i0 * 4 + i1 / 16) :: (i1 % 16 * 16 + i2 / 4) ::
                  (i2 % 4 * 64 + i3) :: bs
            | none => none
        | none => none
    | _, _ => none
  | _ => none

/-- Model of base64.StdEncoding.DecodeString; like Go it ignores CR and
LF inside the input. -/
def base64Decode (s : String) : Option (List Nat) :=
  b64DecodeGroups (s.data.filter fun c => ¬ (c = '\r' ∨ c = '\n'))

/-- Bytes to string, as Go string(bytes); the claims use ASCII payloads. -/
def stringOfBytes (bs : List Nat) : String :=
  String.mk (bs.map Char.ofNat)

example : (base64Decode "AGFsaWNlAHNlY3JldA==").map stringOfBytes
    = some (String.mk (('\x00' :: "alice".data) ++ ('\x00' :: "secret".data))) := by decide

/-! ## Session state (session.go, server.go) -/

/-- A transport handle: a raw accepted connection, or a TLS wrapper
around one (tls.Server). -/
inductive Conn where
  | plain (id : Nat)
  | tls (inner : Conn)
deriving Repr, DecidableEq

/-- The immutable server configuration consulted by the session;
TLS material is abstracted to its presence. -/
structure ServerConfig where
  hostname : String
  requireAuth : Bool
  requireTLS : Bool
  hasTLSConfig : Bool
deriving Repr, DecidableEq

/-- The mutable per-connection session state: the fields of the Go
session struct that the verb handlers read and write (the handler
references live in `World`; a message handler is tracked by the
identifier the policy oracle returned for it). -/
structure SessionState where
  config : ServerConfig
  conn : Conn
  gotHelo : Bool
  isTLS : Bool
  keepGoing : Bool
  mHandler : Option Nat
deriving Repr, DecidableEq

/-- newSession: fresh state bound to a transport; no greeting seen, no
active message, keep serving. -/
def newSession (config : ServerConfig) (conn : Conn) (isTLS : Bool) : SessionState :=
  { config := config
    conn := conn
    gotHelo := false
    isTLS := isTLS
    keepGoing := true
    mHandler := none }

/-- The session's environment: transcript, input queue, and one
response oracle per external operation (transport writes, the policy
handler, the message handler, the connection factory). -/
structure World where
  writeResult : Nat → Option String
  writeCount : Nat
  written : List String
  inputLines : List String
  fatalReports : List GoError
  authCalls : List (String × String)
  connClosed : Bool
  connCloseResp : Option String
  deadlineResp : Option String
  heloResp : String → Bool → Option GoError
  msgResp : String → Except GoError Nat
  maxSize : Nat
  dataWriterResp : Except GoError Unit
  copyResp : Option GoError
  closeResp : Option GoError
  rcptResp : String → Option GoError
  newConnResp : Except GoError Unit
  authResp : String → String → Option GoError

/-- writer.PrintfLine: the nth write either fails fatally (per the
oracle) or appends the line to the transcript. -/
def printfLine (w : World) (line : String) : World × Option GoError :=
  match w.writeResult w.writeCount with
  | some msg => ({ w with writeCount := w.writeCount + 1 }, some (.fatal msg))
  | none =>
    ({ w with writeCount := w.writeCount + 1, written := w.written ++ [line] }, none)

/-- reader.ReadLine: pop the next input line; an exhausted queue is a
fatal transport read error. -/
def readLine (w : World) : World × Except GoError String :=
  match w.inputLines with
  | [] => (w, .error (.fatal "read error"))
  | l :: rest => ({ w with inputLines := rest }, .ok l)

/-- sHandler.HandleSessionError: record a fatal report. -/
def recordFatal (w : World) (e : GoError) : World :=
  { w with fatalReports := w.fatalReports ++ [e] }

/-- sHandler.Authenticate: record the call and answer per the oracle. -/
def authenticate (w : World) (username password : String) : World × Option GoError :=
  ({ w with authCalls := w.authCalls ++ [(username, password)] },
   w.authResp username password)

/-- closeOrReport: close the transport, forwarding a close failure to
the policy handler's fatal-error sink. -/
def closeOrReport (w : World) : World :=
  let w := { w with connClosed := true }
  match w.connCloseResp with
  | some msg => recordFatal w (.fatal msg)
  | none => w

/-- The outcome of one Go verb handler: a normal return (new state, new
world, returned error value) or a runtime panic. -/
inductive GoOutcome where
  | norm (s : SessionState) (w : World) (res : Option GoError)
  | panicked (msg : String)

/-- State component of a normal outcome. -/
def outState : GoOutcome → Option SessionState
  | .norm s _ _ => some s
  | .panicked _ => none

/-- Returned-error component of a normal outcome. -/
def outRes : GoOutcome → Option (Option GoError)
  | .norm _ _ res => some res
  | .panicked _ => none

/-! ## Verb handlers (session.go) -/

/-- The message a Go index-out-of-range panic carries. -/
def indexOutOfRange : String := "runtime error: index out of range"

/-- authLOGIN: two base64 challenge/response rounds, then Authenticate. -/
def authLOGIN (s : SessionState) (w : World) (_cmd : Command) : GoOutcome :=
  match printfLine w (toString StatusProvideCredentials ++ " VXNlcm5hbWU6") with
  | (w, some e) => .norm s w (some e)
  | (w, none) =>
    match readLine w with
    | (w, .error e) => .norm s w (some e)
    | (w, .ok line) =>
      match base64Decode line with
      | none => .norm s w (some (.reportable ErrDecodingCredentials))
      | some byteUsername =>
        match printfLine w (toString StatusProvideCredentials ++ " UGFzc3dvcmQ6") with
        | (w, some e) => .norm s w (some e)
        | (w, none) =>
          match readLine w with
          | (w, .error e) => .norm s w (some e)
          | (w, .ok line) =>
            match base64Decode line with
            | none => .norm s w (some (.reportable ErrDecodingCredentials))
            | some bytePassword =>
              let (w, res) :=
                authenticate w (stringOfBytes byteUsername) (stringOfBytes bytePassword)
              .norm s w res

/-- The 334 prompt authPLAIN sends when the payload is not inline. -/
def credPrompt : String :=
  toString StatusProvideCredentials ++ " Give me your credentials"

/-- authPLAIN: take the payload inline from the third field or prompt
for it, base64-decode, split on NUL into exactly three parts, and call
Authenticate with parts one and two. -/
def authPLAIN (s : SessionState) (w : World) (cmd : Command) : GoOutcome :=
  let acquired : World × Except GoError String :=
    if cmd.fields.length < 3 then
      match printfLine w credPrompt with
      | (w, some e) => (w, .error e)
      | (w, none) =>
        match readLine w with
        | (w, .error e) => (w, .error e)
        | (w, .ok line) => (w, .ok line)
    else (w, .ok (cmd.fields.getD 2 ""))
  match acquired with
  | (w, .error e) => .norm s w (some e)
  | (w, .ok auth) =>
    match base64Decode auth with
    | none => .norm s w (some (.reportable ErrDecodingCredentials))
    | some data =>
      match splitOnElem 0 data with
      | [_p0, p1, p2] =>
        let (w, res) := authenticate w (stringOfBytes p1) (stringOfBytes p2)
        .norm s w res
      | _ => .norm s w (some (.reportable ErrDecodingCredentials))

/-- The fixed mechanism table. -/
def authMap (mechanism : String) :
    Option (SessionState → World → Command → GoOutcome) :=
  if mechanism = "LOGIN" then some authLOGIN
  else if mechanism = "PLAIN" then some authPLAIN
  else none

/-- handleAUTH: greeting required, a mechanism argument required, then
dispatch through the mechanism table; unknown mechanism is a 502. -/
def handleAUTH (s : SessionState) (w : World) (cmd : Command) : GoOutcome :=
  if ¬ s.gotHelo then .norm s w (some (.reportable ErrNoHelo))
  else if cmd.fields.length < 2 then .norm s w (some (.reportable ErrInvalidSyntax))
  else
    match authMap (goToUpper (cmd.fields.getD 1 "")) with
    | none =>
      .norm s w (some (.reportable
        ⟨StatusCommandNotImplemented, "Unknown authentication mechanism"⟩))
    | some act => act s w cmd

/-- The 354 go-ahead line handleDATA writes before the body copy. -/
def dataPrompt : String :=
  toString StatusStartMailInput ++ " Go ahead. End your data with <CR><LF>.<CR><LF>"

/-- handleDATA: needs an active message handler; obtain the data sink,
send the 354 prompt, copy the dot-terminated body, close the sink;
only after both succeed is the handler reference cleared and ThankYou
returned. -/
def handleDATA (s : SessionState) (w : World) (_cmd : Command) : GoOutcome :=
  match s.mHandler with
  | none => .norm s w (some (.reportable ErrBadSequence))
  | some _ =>
    match w.dataWriterResp with
    | .error e => .norm s w (some e)
    | .ok _ =>
      match printfLine w dataPrompt with
      | (w, some e) => .norm s w (some e)
      | (w, none) =>
        match w.copyResp with
        | some e => .norm s w (some e)
        | none =>
          match w.closeResp with
          | some e => .norm s w (some e)
          | none => .norm { s with mHandler := none } w (some (.reportable ThankYou))

/-- extensions: the EHLO capability list; three unconditional entries
plus STARTTLS (TLS material present, not yet encrypted) and the AUTH
advertisement (auth required). -/
def extensions (s : SessionState) (w : World) : List String :=
  let exts := [toString w.maxSize ++ " SIZE", "8BITMIME", "PIPELINING"]
  let exts := if s.config.hasTLSConfig && !s.isTLS then exts ++ ["STARTTLS"] else exts
  if s.config.requireAuth then exts ++ ["AUTH PLAIN LOGIN"] else exts

/-- The loop in handleEHLO writing 250- continuation lines, stopping at
the first write failure. -/
def writeExtensionLines (w : World) : List String → World × Option GoError
  | [] => (w, none)
  | ext :: rest =>
    match printfLine w (toString StatusOK ++ "-" ++ ext) with
    | (w, some e) => (w, some e)
    | (w, none) => writeExtensionLines w rest

/-- handleEHLO: argument required; clear any in-progress message; ask
the policy handler to classify the greeting (extended); write all but
the last capability as continuation lines; set greeting-received and
return the last capability as the terminating 250 reply. -/
def handleEHLO (s : SessionState) (w : World) (cmd : Command) : GoOutcome :=
  if cmd.fields.length < 2 then .norm s w (some (.reportable ErrInvalidSyntax))
  else
    match w.heloResp (cmd.fields.getD 1 "") true with
    | some e => .norm { s with mHandler := none } w (some e)
    | none =>
      match
        (if (extensions { s with mHandler := none } w).length > 1 then
          writeExtensionLines w
            ((extensions { s with mHandler := none } w).take
              ((extensions { s with mHandler := none } w).length - 1))
         else (w, none)) with
      | (w2, some e) => .norm { s with mHandler := none } w2 (some e)
      | (w2, none) =>
        match (extensions { s with mHandler := none } w)[(extensions
            { s with mHandler := none } w).length - 1]? with
        | none => .panicked indexOutOfRange
        | some last =>
          .norm { s with mHandler := none, gotHelo := true } w2
            (some (.reportable ⟨StatusOK, last⟩))

/-- handleHELO: argument required; clear any in-progress message; ask
the policy handler (not extended); set greeting-received; GoAhead. -/
def handleHELO (s : SessionState) (w : World) (cmd : Command) : GoOutcome :=
  if cmd.fields.length < 2 then .norm s w (some (.reportable ErrInvalidSyntax))
  else
    match w.heloResp (cmd.fields.getD 1 "") false with
    | some e => .norm { s with mHandler := none } w (some e)
    | none =>
      .norm { s with mHandler := none, gotHelo := true } w
        (some (.reportable GoAhead))

/-- handleMAIL: greeting required; TLS-first check; then the unguarded
params[1] access (a panic when the parameter is missing), address
validation, and the request for a message handler. -/
def handleMAIL (s : SessionState) (w : World) (cmd : Command) : GoOutcome :=
  if ¬ s.gotHelo then .norm s w (some (.reportable ErrNoHelo))
  else if s.config.requireTLS && !s.isTLS then
    .norm s w (some (.reportable ⟨StatusBadSequence, "please start TLS 1st"⟩))
  else
    match cmd.params[1]? with
    | none => .panicked indexOutOfRange
    | some p =>
      match parseAddress p with
      | .error e => .norm s w (some e)
      | .ok sender =>
        match w.msgResp sender with
        | .error e => .norm s w (some e)
        | .ok h => .norm { s with mHandler := some h } w (some (.reportable GoAhead))

/-- handleNOOP: GoAhead, no state change. -/
def handleNOOP (s : SessionState) (w : World) (_cmd : Command) : GoOutcome :=
  .norm s w (some (.reportable GoAhead))

/-- handleQUIT: stop serving and return the closing reply. -/
def handleQUIT (s : SessionState) (w : World) (_cmd : Command) : GoOutcome :=
  .norm { s with keepGoing := false } w
    (some (.reportable ⟨StatusServiceClosing, "OK, bye"⟩))

/-- handleRCPT: needs an active message handler; then the unguarded
params[1] access, address validation, and AddRecipient. -/
def handleRCPT (s : SessionState) (w : World) (cmd : Command) : GoOutcome :=
  match s.mHandler with
  | none => .norm s w (some (.reportable ErrBadSequence))
  | some _ =>
    match cmd.params[1]? with
    | none => .panicked indexOutOfRange
    | some p =>
      match parseAddress p with
      | .error e => .norm s w (some e)
      | .ok recipient =>
        match w.rcptResp recipient with
        | some e => .norm s w (some e)
        | none => .norm s w (some (.reportable GoAhead))

/-- handleRSET: clear the active message handler; GoAhead. -/
def handleRSET (s : SessionState) (w : World) (_cmd : Command) : GoOutcome :=
  .norm { s with mHandler := none } w (some (.reportable GoAhead))

/-- The 250 go-ahead handleSTARTTLS writes before the handshake. -/
def startTLSGoAhead : String := toString StatusOK ++ " Go ahead"

/-- handleSTARTTLS: reject when already encrypted or TLS unsupported;
wrap the transport, send go-ahead, obtain a fresh policy handler from
the factory, and replace the whole session state in place. -/
def handleSTARTTLS (s : SessionState) (w : World) (_cmd : Command) : GoOutcome :=
  if s.isTLS then
    .norm s w (some (.reportable ⟨StatusSyntaxError, "already running TLS"⟩))
  else if ¬ s.config.hasTLSConfig then
    .norm s w (some (.reportable ⟨StatusCommandNotImplemented, "TLS not supported"⟩))
  else
    let tlsConn := Conn.tls s.conn
    match printfLine w startTLSGoAhead with
    | (w, some e) => .norm s w (some e)
    | (w, none) =>
      match w.newConnResp with
      | .error e => .norm s w (some e)
      | .ok _ => .norm (newSession s.config tlsConn true) w none

/-! ## Dispatch and the serve loop (session.go) -/

/-- The fixed verb table. -/
def operationHandlers (verb : String) :
    Option (SessionState → World → Command → GoOutcome) :=
  if verb = "AUTH" then some handleAUTH
  else if verb = "DATA" then some handleDATA
  else if verb = "EHLO" then some handleEHLO
  else if verb = "HELO" then some handleHELO
  else if verb = "MAIL" then some handleMAIL
  else if verb = "NOOP" then some handleNOOP
  else if verb = "QUIT" then some handleQUIT
  else if verb = "RCPT" then some handleRCPT
  else if verb = "RSET" then some handleRSET
  else if verb = "STARTTLS" then some handleSTARTTLS
  else none

/-- handleError: nothing on nil; a reportable status is written as
"code message" (a failed write recursing into the fatal branch); any
other error stops the session and is reported to the policy handler. -/
def handleErrorStep (s : SessionState) (w : World) : Option GoError → SessionState × World
  | none => (s, w)
  | some (.reportable r) =>
    match printfLine w (toString r.code ++ " " ++ r.message) with
    | (w, none) => (s, w)
    | (w, some e) => ({ s with keepGoing := false }, recordFatal w e)
  | some (.fatal msg) => ({ s with keepGoing := false }, recordFatal w (.fatal msg))

/-- One loop iteration after the keep-going test: arm the read
deadline, read a line, parse, dispatch, feed the result to
handleError. -/
inductive StepResult where
  | next (s : SessionState) (w : World)
  | panicked (msg : String)

/-- serveOne, the body of the command loop. -/
def serveOne (s : SessionState) (w : World) : StepResult :=
  match w.deadlineResp with
  | some msg =>
    let (s, w) := handleErrorStep s w (some (.fatal msg))
    .next s w
  | none =>
    match readLine w with
    | (w, .error e) =>
      let (s, w) := handleErrorStep s w (some e)
      .next s w
    | (w, .ok line) =>
      let cmd := parseLine line
      match operationHandlers cmd.action with
      | none =>
        let (s, w) := handleErrorStep s w
          (some (.reportable ⟨StatusCommandNotImplemented, "Unsupported command"⟩))
        .next s w
      | some act =>
        match act s w cmd with
        | .panicked m => .panicked m
        | .norm s w res =>
          let (s, w) := handleErrorStep s w res
          .next s w

/-- Result of running the serve loop for a given number of iterations:
still spinning, returned (the deferred transport close has run), or a
runtime panic. -/
inductive ServeResult where
  | running (s : SessionState) (w : World)
  | returned (w : World)
  | panicked (msg : String)

/-- The for-loop of serve, one fuel unit per iteration: the body runs
serveOne only when keep-going holds, and the loop itself has no exit
statement of any kind. -/
def serveLoop : Nat → SessionState → World → ServeResult
  | 0, s, w => .running s w
  | Nat.succ fuel, s, w =>
    if s.keepGoing then
      match serveOne s w with
      | .panicked m => .panicked m
      | .next s w => serveLoop fuel s w
    else serveLoop fuel s w

/-- serve: write the greeting (on failure report it, return, and let
the deferred closeOrReport run), then enter the loop. -/
def serve (fuel : Nat) (s : SessionState) (w : World) : ServeResult :=
  match printfLine w
      (toString StatusServiceReady ++ " " ++ s.config.hostname ++ " ESMTP ready") with
  | (w, some e) => .returned (closeOrReport (recordFatal w e))
  | (w, none) => serveLoop fuel s w

/-! ## Concrete fixtures used by witnesses and counterexamples -/

/-- A write oracle on which every write succeeds. -/
def okWrites : Nat → Option String := fun _ => none

def baseConfig : ServerConfig :=
  { hostname := "mx.example"
    requireAuth := false
    requireTLS := false
    hasTLSConfig := true }

/-- An environment where every oracle answers with success. -/
def baseWorld : World :=
  { writeResult := okWrites
    writeCount := 0
    written := []
    inputLines := []
    fatalReports := []
    authCalls := []
    connClosed := false
    connCloseResp := none
    deadlineResp := none
    heloResp := fun _ _ => none
    msgResp := fun _ => .ok 7
    maxSize := 1024
    dataWriterResp := .ok ()
    copyResp := none
    closeResp := none
    rcptResp := fun _ => none
    newConnResp := .ok ()
    authResp := fun _ _ => none }

def baseSession : SessionState := newSession baseConfig (Conn.plain 0) false

/-- State after a successful greeting. -/
def heloSession : SessionState := { baseSession with gotHelo := true }

/-- State after a successful greeting and a successful MAIL. -/
def mailSession : SessionState := { heloSession with mHandler := some 7 }

example : parseLine "MAIL FROM:<foo@bar>" =
    { line := "MAIL FROM:<foo@bar>"
      action := "MAIL"
      fields := ["MAIL", "FROM:<foo@bar>"]
      params := ["FROM", "<foo@bar>"] } := by decide

example : handleMAIL heloSession baseWorld (parseLine "MAIL FROM:<foo@bar>")
    = .norm mailSession baseWorld (some (.reportable GoAhead)) := rfl

example : outState (handleDATA mailSession baseWorld (parseLine "DATA"))
    = some { mailSession with mHandler := none } := rfl

/-- Environment in which the body copy into the data sink fails. -/
def copyFailWorld : World := { baseWorld with copyResp := some (.fatal "disk full") }

/-- Environment in which the data sink's Close fails. -/
def closeFailWorld : World := { baseWorld with closeResp := some (.fatal "close failed") }

/-! ## Shared helper lemmas -/

lemma printfLine_ok (w : World) (line : String)
    (hw : w.writeResult w.writeCount = none) :
    printfLine w line
      = ({ w with writeCount := w.writeCount + 1, written := w.written ++ [line] },
         none) := by
  unfold printfLine
  rw [hw]

/-! ## Claim C1 -/

/-- Claim C1 counterexample: with an active message handler, when the
body copy into the data sink fails (or the sink's Close fails), the
failure is propagated but the active message handler is NOT cleared —
the session state is returned unchanged, message handler still set. -/
theorem handleDATA_failure_keeps_handler :
    outRes (handleDATA mailSession copyFailWorld (parseLine "DATA"))
      = some (some (.fatal "disk full")) ∧
    (outState (handleDATA mailSession copyFailWorld (parseLine "DATA"))).map
        SessionState.mHandler = some (some 7) ∧
    outRes (handleDATA mailSession closeFailWorld (parseLine "DATA"))
      = some (some (.fatal "close failed")) ∧
    (outState (handleDATA mailSession closeFailWorld (parseLine "DATA"))).map
        SessionState.mHandler = some (some 7) :=
  ⟨rfl, rfl, rfl, rfl⟩

/-- Claim C1 (amended): with an active message handler, a working sink
acquisition and a working 354 write, a failing copy or a failing close
propagates that failure and leaves the session state — in particular
the active message handler — unchanged; the handler is cleared exactly
when both the copy and the close succeed, in which case ThankYou is
returned. -/
theorem handleDATA_propagates_clears_only_on_success
    (s : SessionState) (w : World) (cmd : Command) (n : Nat)
    (hm : s.mHandler = some n) (hgw : w.dataWriterResp = Except.ok ())
    (hw : w.writeResult w.writeCount = none) :
    (∀ e, w.copyResp = some e →
      handleDATA s w cmd = .norm s (printfLine w dataPrompt).1 (some e)) ∧
    (∀ e, w.copyResp = none → w.closeResp = some e →
      handleDATA s w cmd = .norm s (printfLine w dataPrompt).1 (some e)) ∧
    (w.copyResp = none → w.closeResp = none →
      handleDATA s w cmd
        = .norm { s with mHandler := none } (printfLine w dataPrompt).1
            (some (.reportable ThankYou))) := by
  refine ⟨?_, ?_, ?_⟩
  · intro e he
    simp [handleDATA, hm, hgw, printfLine_ok w dataPrompt hw, he]
  · intro e hc he
    simp [handleDATA, hm, hgw, printfLine_ok w dataPrompt hw, hc, he]
  · intro hc hcl
    simp [handleDATA, hm, hgw, printfLine_ok w dataPrompt hw, hc, hcl]

theorem handleDATA_propagates_clears_only_on_success_witness :
    handleDATA mailSession baseWorld (parseLine "DATA")
      = .norm { mailSession with mHandler := none }
          (printfLine baseWorld dataPrompt).1 (some (.reportable ThankYou)) :=
  (handleDATA_propagates_clears_only_on_success mailSession baseWorld
    (parseLine "DATA") 7 rfl rfl rfl).2.2 rfl rfl

/-! ## Claim C2 -/

/-- Claim C2: handleQUIT clears the keep-going flag and returns the
closing 221 reply — but the serve loop never exits: with keep-going
false it spins forever with unchanged state, and no amount of fuel
makes serveLoop return, so the deferred transport close never runs
after QUIT. -/
theorem quit_clears_flag_but_loop_never_exits :
    (∀ s w cmd, handleQUIT s w cmd
      = .norm { s with keepGoing := false } w
          (some (.reportable ⟨StatusServiceClosing, "OK, bye"⟩))) ∧
    (∀ fuel (s : SessionState) (w : World), s.keepGoing = false →
      serveLoop fuel s w = .running s w) ∧
    (∀ fuel s w w2, serveLoop fuel s w ≠ .returned w2) := by
  refine ⟨fun s w cmd => rfl, ?_, ?_⟩
  · intro fuel
    induction fuel with
    | zero => intro s w _; rfl
    | succ n ih =>
      intro s w h
      rw [serveLoop, if_neg (by simp [h])]
      exact ih s w h
  · intro fuel
    induction fuel with
    | zero =>
      intro s w w2
      simp [serveLoop]
    | succ n ih =>
      intro s w w2
      rw [serveLoop]
      split
      · cases hso : serveOne s w with
        | panicked m => simp
        | next s' w' => exact ih s' w' w2
      · exact ih s w w2

theorem quit_clears_flag_but_loop_never_exits_witness :
    serveLoop 5 { baseSession with keepGoing := false } baseWorld
      = .running { baseSession with keepGoing := false } baseWorld :=
  quit_clears_flag_but_loop_never_exits.2.1 5
    { baseSession with keepGoing := false } baseWorld rfl

/-! ## Claim C3 -/

/-- Claim C3 (the code evaluated at the failing inputs): MAIL with no
argument, MAIL with an argument lacking the colon-separated parameter,
and RCPT with no argument — all otherwise in sequence — hit the
unguarded params index-1 access and panic instead of replying with a
syntax error. -/
theorem mail_rcpt_missing_argument_panics :
    handleMAIL heloSession baseWorld (parseLine "MAIL")
      = .panicked indexOutOfRange ∧
    handleMAIL heloSession baseWorld (parseLine "MAIL FROM")
      = .panicked indexOutOfRange ∧
    handleRCPT mailSession baseWorld (parseLine "RCPT")
      = .panicked indexOutOfRange :=
  ⟨rfl, rfl, rfl⟩

/-! ## Claim C7 -/

/-- Claim C7: MAIL before any successful greeting is rejected with the
503 no-greeting status; with the greeting present but TLS required and
not active it is rejected 503 directing the client to start TLS;
otherwise a valid bracketed address accepted by the policy handler
yields the 250 GoAhead reply and the returned message handler is
stored as the session's active message handler. -/
theorem handleMAIL_sequencing (s : SessionState) (w : World) (cmd : Command) :
    (s.gotHelo = false →
      handleMAIL s w cmd = .norm s w (some (.reportable ErrNoHelo))) ∧
    (s.gotHelo = true → s.config.requireTLS = true → s.isTLS = false →
      handleMAIL s w cmd
        = .norm s w
            (some (.reportable ⟨StatusBadSequence, "please start TLS 1st"⟩))) ∧
    (∀ p a h, s.gotHelo = true → (s.config.requireTLS && !s.isTLS) = false →
      cmd.params[1]? = some p → parseAddress p = .ok a → w.msgResp a = .ok h →
      handleMAIL s w cmd
        = .norm { s with mHandler := some h } w (some (.reportable GoAhead))) := by
  refine ⟨?_, ?_, ?_⟩
  · intro h
    simp [handleMAIL, h]
  · intro h1 h2 h3
    simp [handleMAIL, h1, h2, h3]
  · intro p a h h1 h2 h3 h4 h5
    simp [handleMAIL, h1, h2, h3, h4, h5]

theorem handleMAIL_sequencing_witness :
    handleMAIL heloSession baseWorld (parseLine "MAIL FROM:<foo@bar>")
      = .norm mailSession baseWorld (some (.reportable GoAhead)) :=
  (handleMAIL_sequencing heloSession baseWorld
    (parseLine "MAIL FROM:<foo@bar>")).2.2 "<foo@bar>" "foo@bar" 7 rfl rfl rfl rfl rfl

/-! ## Claim C4 -/

/-- Claim C4: a successful STARTTLS (not yet encrypted, TLS material
configured, go-ahead write and connection factory succeeding) replaces
the whole session state: the transport is the TLS wrapper of the old
one, encrypted is set, greeting-received is reset, the message handler
is cleared; consequently a second STARTTLS on the new state is
rejected 501 "already running TLS" and MAIL is rejected until a fresh
greeting. -/
theorem handleSTARTTLS_replaces_state
    (s : SessionState) (w : World) (cmd : Command)
    (h1 : s.isTLS = false) (h2 : s.config.hasTLSConfig = true)
    (h3 : w.writeResult w.writeCount = none) (h4 : w.newConnResp = Except.ok ()) :
    handleSTARTTLS s w cmd
      = .norm (newSession s.config (Conn.tls s.conn) true)
          (printfLine w startTLSGoAhead).1 none ∧
    (newSession s.config (Conn.tls s.conn) true).conn = Conn.tls s.conn ∧
    (newSession s.config (Conn.tls s.conn) true).isTLS = true ∧
    (newSession s.config (Conn.tls s.conn) true).gotHelo = false ∧
    (newSession s.config (Conn.tls s.conn) true).mHandler = none ∧
    (∀ w2 cmd2, handleSTARTTLS (newSession s.config (Conn.tls s.conn) true) w2 cmd2
      = .norm (newSession s.config (Conn.tls s.conn) true) w2
          (some (.reportable ⟨StatusSyntaxError, "already running TLS"⟩))) ∧
    (∀ w2 cmd2, handleMAIL (newSession s.config (Conn.tls s.conn) true) w2 cmd2
      = .norm (newSession s.config (Conn.tls s.conn) true) w2
          (some (.reportable ErrNoHelo))) := by
  refine ⟨?_, rfl, rfl, rfl, rfl, ?_, ?_⟩
  · simp [handleSTARTTLS, h1, h2, h4, printfLine_ok w startTLSGoAhead h3]
  · intro w2 cmd2
    simp [handleSTARTTLS, newSession]
  · intro w2 cmd2
    simp [handleMAIL, newSession]

theorem handleSTARTTLS_replaces_state_witness :
    handleSTARTTLS baseSession baseWorld (parseLine "STARTTLS")
      = .norm (newSession baseConfig (Conn.tls (Conn.plain 0)) true)
          (printfLine baseWorld startTLSGoAhead).1 none :=
  (handleSTARTTLS_replaces_state baseSession baseWorld
    (parseLine "STARTTLS") rfl rfl rfl rfl).1

/-! ## Claim C8 -/

/-- Claim C8: parseAddress fails with ErrMalformedEmail unless the
input is wrapped in angle brackets AND the mail-address parser accepts
it; on success it returns exactly the parser's canonical bracket-free
address (no partial success); concretely, the bare address is rejected
while the bracketed one is accepted and normalized. -/
theorem parseAddress_contract :
    (∀ src : String,
      ¬ (src.data.head? = some '<' ∧ src.data.getLast? = some '>') →
      parseAddress src = .error (.reportable ErrMalformedEmail)) ∧
    (∀ src, mailParseAddress src = none →
      parseAddress src = .error (.reportable ErrMalformedEmail)) ∧
    (∀ src a, parseAddress src = .ok a → mailParseAddress src = some a) ∧
    parseAddress "<foo@bar>" = .ok "foo@bar" ∧
    parseAddress "foo@bar" = .error (.reportable ErrMalformedEmail) := by
  refine ⟨?_, ?_, ?_, rfl, rfl⟩
  · intro src h
    simp [parseAddress, h]
  · intro src h
    unfold parseAddress
    split
    · rfl
    · rw [h]
  · intro src a h
    unfold parseAddress at h
    split at h
    · exact absurd h (by simp)
    · cases hg : mailParseAddress src with
      | none => rw [hg] at h; exact absurd h (by simp)
      | some b => rw [hg] at h; cases h; rfl

theorem parseAddress_contract_witness :
    parseAddress "x" = .error (.reportable ErrMalformedEmail) :=
  parseAddress_contract.1 "x" (by decide)

/-! ## Claim C9 -/

/-- Claim C9: EHLO and HELO with an argument clear the active message
handler before the policy handler's greeting classification runs, so
the in-progress transaction is discarded even when the classification
rejects; and every normal outcome of either handler has a cleared
message handler. -/
theorem helo_clears_transaction (s : SessionState) (w : World) (cmd : Command) :
    (∀ e, 2 ≤ cmd.fields.length →
      w.heloResp (cmd.fields.getD 1 "") true = some e →
      handleEHLO s w cmd = .norm { s with mHandler := none } w (some e)) ∧
    (∀ e, 2 ≤ cmd.fields.length →
      w.heloResp (cmd.fields.getD 1 "") false = some e →
      handleHELO s w cmd = .norm { s with mHandler := none } w (some e)) ∧
    (∀ s2 w2 res, 2 ≤ cmd.fields.length →
      handleHELO s w cmd = .norm s2 w2 res → s2.mHandler = none) ∧
    (∀ s2 w2 res, 2 ≤ cmd.fields.length →
      handleEHLO s w cmd = .norm s2 w2 res → s2.mHandler = none) := by
  refine ⟨?_, ?_, ?_, ?_⟩
  · intro e hlen hr
    rw [handleEHLO, if_neg (Nat.not_lt.mpr hlen), hr]
  · intro e hlen hr
    rw [handleHELO, if_neg (Nat.not_lt.mpr hlen), hr]
  · intro s2 w2 res hlen heq
    rw [handleHELO, if_neg (Nat.not_lt.mpr hlen)] at heq
    cases hr : w.heloResp (cmd.fields.getD 1 "") false with
    | some e => rw [hr] at heq; cases heq; rfl
    | none => rw [hr] at heq; cases heq; rfl
  · intro s2 w2 res hlen heq
    rw [handleEHLO, if_neg (Nat.not_lt.mpr hlen)] at heq
    cases hr : w.heloResp (cmd.fields.getD 1 "") true with
    | some e => rw [hr] at heq; cases heq; rfl
    | none =>
      rw [hr] at heq
      rcases hwe :
        (if (extensions { s with mHandler := none } w).length > 1 then
          writeExtensionLines w
            ((extensions { s with mHandler := none } w).take
              ((extensions { s with mHandler := none } w).length - 1))
        else (w, none)) with ⟨w3, e3⟩
      rw [hwe] at heq
      cases e3 with
      | some e => cases heq; rfl
      | none =>
        cases hg :
          (extensions { s with mHandler := none } w)[(extensions
            { s with mHandler := none } w).length - 1]? with
        | none => rw [hg] at heq; cases heq
        | some last => rw [hg] at heq; cases heq; rfl

/-- A policy handler that rejects every greeting. -/
def rejectHeloWorld : World :=
  { baseWorld with heloResp := fun _ _ => some (.reportable ⟨550, "go away"⟩) }

theorem helo_clears_transaction_witness :
    handleEHLO mailSession rejectHeloWorld (parseLine "EHLO client.example")
      = .norm { mailSession with mHandler := none } rejectHeloWorld
          (some (.reportable ⟨550, "go away"⟩)) :=
  (helo_clears_transaction mailSession rejectHeloWorld
      (parseLine "EHLO client.example")).1
    (.reportable ⟨550, "go away"⟩) (by decide) rfl

/-! ## Claim C10 -/

lemma extensions_length_ge_three (s : SessionState) (w : World) :
    3 ≤ (extensions s w).length := by
  cases h1 : s.config.hasTLSConfig && !s.isTLS <;>
    cases h2 : s.config.requireAuth <;>
      simp [extensions, h1, h2]

/-- Claim C10: the EHLO capability list always has at least three
entries (size limit, 8BITMIME, PIPELINING are unconditional), so the
EHLO handler's access to its last element is always in bounds and the
handler never panics. -/
theorem extensions_at_least_three (s : SessionState) (w : World) :
    3 ≤ (extensions s w).length ∧
    ∀ cmd m, handleEHLO s w cmd ≠ .panicked m := by
  refine ⟨extensions_length_ge_three s w, ?_⟩
  intro cmd m heq
  rw [handleEHLO] at heq
  split at heq
  · exact absurd heq (by simp)
  · cases hr : w.heloResp (cmd.fields.getD 1 "") true with
    | some e => rw [hr] at heq; exact absurd heq (by simp)
    | none =>
      rw [hr] at heq
      rcases hwe :
        (if (extensions { s with mHandler := none } w).length > 1 then
          writeExtensionLines w
            ((extensions { s with mHandler := none } w).take
              ((extensions { s with mHandler := none } w).length - 1))
        else (w, none)) with ⟨w3, e3⟩
      rw [hwe] at heq
      cases e3 with
      | some e => exact absurd heq (by simp)
      | none =>
        cases hg :
          (extensions { s with mHandler := none } w)[(extensions
            { s with mHandler := none } w).length - 1]? with
        | none =>
          have h3 := extensions_length_ge_three { s with mHandler := none } w
          have := List.getElem?_eq_none_iff.mp hg
          omega
        | some last => rw [hg] at heq; exact absurd heq (by simp)

theorem extensions_at_least_three_witness :
    3 ≤ (extensions baseSession baseWorld).length :=
  (extensions_at_least_three baseSession baseWorld).1

/-! ## Claim C5 -/

lemma sizeLine_data_getLast (n : Nat) :
    (toString n ++ " SIZE").data.getLast? = some 'E' := by
  rw [String.data_append, List.getLast?_append]
  rfl

lemma sizeLine_ne (n : Nat) (t : String) (ht : t.data.getLast? ≠ some 'E') :
    toString n ++ " SIZE" ≠ t := by
  intro h
  exact ht (h ▸ sizeLine_data_getLast n)

lemma writeExtensionLines_ok (exts : List String) :
    ∀ w : World, (∀ n, w.writeResult n = none) →
    writeExtensionLines w exts
      = ({ w with
            writeCount := w.writeCount + exts.length,
            written := w.written
              ++ exts.map (fun e => toString StatusOK ++ "-" ++ e) },
         none) := by
  induction exts with
  | nil =>
    intro w hw
    simp [writeExtensionLines]
  | cons x xs ih =>
    intro w hw
    rw [writeExtensionLines, printfLine_ok w _ (hw w.writeCount)]
    dsimp only
    rw [ih { w with
      writeCount := w.writeCount + 1,
      written := w.written ++ [toString StatusOK ++ "-" ++ x] } hw]
    simp [World.mk.injEq, List.append_assoc]
    omega

/-- Claim C5: for an EHLO whose greeting the policy handler accepts
(and with a working transport), the reply is multi-line: all
capability lines but the last are written in 250-continuation form,
the last capability is returned as the terminating reportable 250
status (which the dispatcher writes as "250 text"); STARTTLS appears
in the capability list exactly once iff TLS material is configured and
the session is not yet encrypted, and the AUTH advertisement appears
iff require-AUTH is set. -/
theorem handleEHLO_multiline_reply
    (s : SessionState) (w : World) (cmd : Command)
    (hlen : 2 ≤ cmd.fields.length)
    (hh : w.heloResp (cmd.fields.getD 1 "") true = none)
    (hw : ∀ n, w.writeResult n = none) :
    ∃ w2 last,
      (extensions { s with mHandler := none } w).getLast? = some last ∧
      handleEHLO s w cmd
        = .norm { s with mHandler := none, gotHelo := true } w2
            (some (.reportable ⟨StatusOK, last⟩)) ∧
      w2.written = w.written ++
        (extensions { s with mHandler := none } w).dropLast.map
          (fun e => toString StatusOK ++ "-" ++ e) ∧
      ((extensions { s with mHandler := none } w).count "STARTTLS"
        = if s.config.hasTLSConfig && !s.isTLS then 1 else 0) ∧
      (("AUTH PLAIN LOGIN" ∈ extensions { s with mHandler := none } w)
        ↔ s.config.requireAuth = true) ∧
      (∀ s3 (w3 : World), w3.writeResult w3.writeCount = none →
        (handleErrorStep s3 w3 (some (.reportable ⟨StatusOK, last⟩))).2.written
          = w3.written ++ [toString StatusOK ++ " " ++ last]) := by
  have h3 := extensions_length_ge_three { s with mHandler := none } w
  set E := extensions { s with mHandler := none } w with hE
  have hlt : E.length - 1 < E.length := by omega
  have hlast : E.getLast? = some (E.get ⟨E.length - 1, hlt⟩) := by
    rw [List.getLast?_eq_getElem?]
    exact List.getElem?_eq_getElem hlt
  refine ⟨{ w with
      writeCount := w.writeCount + (E.take (E.length - 1)).length,
      written := w.written
        ++ (E.take (E.length - 1)).map (fun e => toString StatusOK ++ "-" ++ e) },
    E.get ⟨E.length - 1, hlt⟩, hlast, ?_, ?_, ?_, ?_, ?_⟩
  · rw [handleEHLO, if_neg (Nat.not_lt.mpr hlen), hh]
    dsimp only
    rw [← hE, if_pos (by omega : E.length > 1)]
    rw [writeExtensionLines_ok (E.take (E.length - 1)) w hw]
    dsimp only
    rw [List.getElem?_eq_getElem hlt]
    rfl
  · rw [List.dropLast_eq_take]
  · have hne : toString w.maxSize ++ " SIZE" ≠ "STARTTLS" :=
      sizeLine_ne w.maxSize "STARTTLS" (by decide)
    rw [hE]
    cases hb1 : s.config.hasTLSConfig && !s.isTLS <;>
      cases hb2 : s.config.requireAuth <;>
        simp [extensions, hb1, hb2, List.count_cons, List.count_append,
          List.count_nil, hne]
  · have hne : "AUTH PLAIN LOGIN" ≠ toString w.maxSize ++ " SIZE" :=
      (sizeLine_ne w.maxSize "AUTH PLAIN LOGIN" (by decide)).symm
    have d1 : "AUTH PLAIN LOGIN" ≠ "8BITMIME" := by decide
    have d2 : "AUTH PLAIN LOGIN" ≠ "PIPELINING" := by decide
    have d3 : "AUTH PLAIN LOGIN" ≠ "STARTTLS" := by decide
    rw [hE]
    cases hb1 : s.config.hasTLSConfig && !s.isTLS <;>
      cases hb2 : s.config.requireAuth <;>
        simp [extensions, hb1, hb2, hne, d1, d2, d3]
  · intro s3 w3 hw3
    simp [handleErrorStep, printfLine_ok w3 _ hw3]

theorem handleEHLO_multiline_reply_witness :
    ∃ w2 last,
      (extensions { baseSession with mHandler := none } baseWorld).getLast?
        = some last ∧
      handleEHLO baseSession baseWorld (parseLine "EHLO client.example")
        = .norm { baseSession with mHandler := none, gotHelo := true } w2
            (some (.reportable ⟨StatusOK, last⟩)) ∧
      w2.written = baseWorld.written ++
        (extensions { baseSession with mHandler := none } baseWorld).dropLast.map
          (fun e => toString StatusOK ++ "-" ++ e) ∧
      ((extensions { baseSession with mHandler := none } baseWorld).count "STARTTLS"
        = if baseSession.config.hasTLSConfig && !baseSession.isTLS then 1 else 0) ∧
      (("AUTH PLAIN LOGIN" ∈ extensions { baseSession with mHandler := none } baseWorld)
        ↔ baseSession.config.requireAuth = true) ∧
      (∀ s3 (w3 : World), w3.writeResult w3.writeCount = none →
        (handleErrorStep s3 w3 (some (.reportable ⟨StatusOK, last⟩))).2.written
          = w3.written ++ [toString StatusOK ++ " " ++ last]) :=
  handleEHLO_multiline_reply baseSession baseWorld
    (parseLine "EHLO client.example") (by decide) rfl (fun _ => rfl)

/-! ## Claim C6 -/

/-- Claim C6: for every payload, AUTH PLAIN with the payload inline as
the third field and AUTH PLAIN with the same payload supplied after
the 334 prompt produce the same outcome — identical session state,
identical Authenticate calls and identical result, the interactive run
differing only by the prompt line written and the input line consumed;
concretely, the base64 encoding of NUL alice NUL secret yields the
call Authenticate("alice", "secret") on the inline path, while an
undecodable payload and a decodable payload with a part count other
than three both yield the credential-decoding syntax error. -/
theorem authPLAIN_inline_interactive_agree :
    (∀ (s : SessionState) (w : World) (payload f0 f1 : String),
      w.writeResult w.writeCount = none →
      ∃ w1 res,
        authPLAIN s w
          { line := "", action := "AUTH", fields := [f0, f1, payload], params := [] }
          = .norm s w1 res ∧
        authPLAIN s { w with inputLines := payload :: w.inputLines }
          { line := "", action := "AUTH", fields := [f0, f1], params := [] }
          = .norm s
              { w1 with
                written := w1.written ++ [credPrompt],
                writeCount := w1.writeCount + 1 } res) ∧
    (∀ s w, authPLAIN s w
        { line := "", action := "AUTH",
          fields := ["AUTH", "PLAIN", "AGFsaWNlAHNlY3JldA=="], params := [] }
      = .norm s { w with authCalls := w.authCalls ++ [("alice", "secret")] }
          (w.authResp "alice" "secret")) ∧
    (∀ s w, authPLAIN s w
        { line := "", action := "AUTH", fields := ["AUTH", "PLAIN", "*"], params := [] }
      = .norm s w (some (.reportable ErrDecodingCredentials))) ∧
    (∀ s w, authPLAIN s w
        { line := "", action := "AUTH", fields := ["AUTH", "PLAIN", "Zm9v"], params := [] }
      = .norm s w (some (.reportable ErrDecodingCredentials))) := by
  refine ⟨?_, fun s w => rfl, fun s w => rfl, fun s w => rfl⟩
  intro s w payload f0 f1 hww
  have hpr := printfLine_ok { w with inputLines := payload :: w.inputLines }
    credPrompt hww
  cases hb : base64Decode payload with
  | none =>
    refine ⟨w, some (.reportable ErrDecodingCredentials), ?_, ?_⟩
    · simp [authPLAIN, hb]
    · simp [authPLAIN, hpr, readLine, hb]
  | some data =>
    rcases hsp : splitOnElem 0 data with _ | ⟨a, _ | ⟨b, _ | ⟨c, _ | ⟨d, t⟩⟩⟩⟩
    · refine ⟨w, some (.reportable ErrDecodingCredentials), ?_, ?_⟩
      · simp [authPLAIN, hb, hsp]
      · simp [authPLAIN, hpr, readLine, hb, hsp]
    · refine ⟨w, some (.reportable ErrDecodingCredentials), ?_, ?_⟩
      · simp [authPLAIN, hb, hsp]
      · simp [authPLAIN, hpr, readLine, hb, hsp]
    · refine ⟨w, some (.reportable ErrDecodingCredentials), ?_, ?_⟩
      · simp [authPLAIN, hb, hsp]
      · simp [authPLAIN, hpr, readLine, hb, hsp]
    · refine ⟨{ w with
          authCalls := w.authCalls ++ [(stringOfBytes b, stringOfBytes c)] },
        w.authResp (stringOfBytes b) (stringOfBytes c), ?_, ?_⟩
      · simp [authPLAIN, hb, hsp, authenticate]
      · simp [authPLAIN, hpr, readLine, hb, hsp, authenticate]
    · refine ⟨w, some (.reportable ErrDecodingCredentials), ?_, ?_⟩
      · simp [authPLAIN, hb, hsp]
      · simp [authPLAIN, hpr, readLine, hb, hsp]

theorem authPLAIN_inline_interactive_agree_witness :
    ∃ w1 res,
      authPLAIN baseSession baseWorld
        { line := "", action := "AUTH",
          fields := ["AUTH", "PLAIN", "AGFsaWNlAHNlY3JldA=="], params := [] }
        = .norm baseSession w1 res ∧
      authPLAIN baseSession
        { baseWorld with inputLines := ["AGFsaWNlAHNlY3JldA=="] }
        { line := "", action := "AUTH", fields := ["AUTH", "PLAIN"], params := [] }
        = .norm baseSession
            { w1 with
              written := w1.written ++ [credPrompt],
              writeCount := w1.writeCount + 1 } res :=
  authPLAIN_inline_interactive_agree.1 baseSession baseWorld
    "AGFsaWNlAHNlY3JldA==" "AUTH" "PLAIN" rfl

end Smtpd
